import Mathlib

/-!
Shallow embedding of the reactive item core of the SmartHomeNG fork
(`lib/item.py`): the update protocol (`Item.__update`, lines 998-1076),
the public call surface (`Item.__call__`, lines 832-839), relative path
expansion (`Item.get_absolutepath`, lines 718-753), the on_change /
on_update destination splitter (`Item._split_destitem_from_value`,
lines 540-563), threshold-attribute parsing (`Item.__init__`, lines
441-449), parent/grandparent attribute copying (lines 453-460 and
756-782) and the fade job (`_fadejob`, lines 1423-1442).

Python strings are modelled as `List Char` (with `String` wrappers),
Python `None` as `Option`, raised exceptions as `none` results, and the
item clock as an abstract `ℕ` tick passed in by the caller.  Item values
are modelled generically by a linearly ordered type `V` (the code is
duck-typed; numeric items are instantiated with `ℤ`, matching Python's
preference for `int` results in `_cast_num`).  The per-item caster
(`self.cast`, a function attribute chosen from the item type at
construction) is modelled as a field `cast : V → Option V`, where `none`
models the `ValueError`/`TypeError` of a failed cast.  External
collaborators (scheduler, evaluator, logics, plugins, cache backend) are
out of scope per the specification; their invocations are recorded as
effect flags rather than executed.
-/

namespace SmartHome

/-! ### Python string primitives used by `lib/item.py` -/

/-- Python `str.strip()`: remove leading and trailing whitespace. -/
def pyStrip (s : List Char) : List Char :=
  ((s.dropWhile Char.isWhitespace).reverse.dropWhile Char.isWhitespace).reverse

/-- Python `str.rstrip()`: remove trailing whitespace. -/
def pyRstrip (s : List Char) : List Char :=
  (s.reverse.dropWhile Char.isWhitespace).reverse

/-- Python `str.find(sub)`: index of the first occurrence of `sub`, or
`none` for Python's `-1`. -/
def pyFind (sub : List Char) : List Char → Option ℕ
  | [] => if sub = [] then some 0 else none
  | c :: rest =>
    if sub.isPrefixOf (c :: rest) then some 0
    else (pyFind sub rest).map (· + 1)

/-- Python `str.rpartition(sep)` for a one-character separator: split at
the last occurrence; when the separator is absent the result is
`('', '', s)`. -/
def pyRpartition (c : Char) (s : List Char) :
    List Char × List Char × List Char :=
  match s.reverse.dropWhile (fun x => x ≠ c), s.reverse.takeWhile (fun x => x ≠ c) with
  | [], _ => ([], [], s)
  | _ :: rest, tk => (rest.reverse, [c], tk.reverse)

/-- Recursion core of `pyReplace`, structurally recursive on a fuel that
bounds the input length (each step consumes at least one character, so
fuel `s.length` is always sufficient). -/
def pyReplaceAux (pat repl : List Char) : ℕ → List Char → List Char
  | 0, s => s
  | _ + 1, [] => []
  | fuel + 1, c :: rest =>
    if pat ≠ [] ∧ pat.isPrefixOf (c :: rest) then
      repl ++ pyReplaceAux pat repl fuel ((c :: rest).drop pat.length)
    else
      c :: pyReplaceAux pat repl fuel rest

/-- Python `str.replace(old, new)` for a non-empty `old`: left-to-right
replacement of non-overlapping occurrences.  (The `old = []` case never
arises in `item.py`.) -/
def pyReplace (pat repl s : List Char) : List Char :=
  pyReplaceAux pat repl s.length s

/-! ### `Item._split_destitem_from_value` (item.py lines 540-563) -/

/-- Faithful rendering of `Item._split_destitem_from_value`: separate an
optional destination item from an `on_change`/`on_update` attribute
value.  When a `==` occurs and the first `=` is not strictly before it,
the source performs no split at all and returns the value unchanged. -/
def Item.split_destitem_from_value (value : List Char) :
    List Char × List Char :=
  match pyFind ['='] value with
  | none => ([], value)
  | some i =>
    match pyFind ['=', '='] value with
    | some j =>
      if i < j then (pyStrip (value.take i), pyStrip (value.drop (i + 1)))
      else ([], value)
    | none => (value.take i, pyStrip (value.drop (i + 1)))

/-- String-level wrapper of `Item.split_destitem_from_value`. -/
def splitDestS (s : String) : String × String :=
  (String.mk (Item.split_destitem_from_value s.toList).1,
   String.mk (Item.split_destitem_from_value s.toList).2)

/-! ### `Item.get_absolutepath` (item.py lines 718-753) -/

/-- Python `rootpath[:rootpath.rfind('.')]`, with `none` for the
`rfind == -1` case. -/
def beforeLastDot (s : List Char) : Option (List Char) :=
  match s.reverse.dropWhile (fun c => c ≠ '.') with
  | [] => none
  | _ :: rest => some rest.reverse

/-- The dot-consuming `while` loop of `get_absolutepath`.  Arguments are
the remaining relative path, the current root path and the
error-logged flag; it returns their final values.  Walking above the
root level empties the relative path (after logging an error) instead of
raising, exactly as the source does. -/
def absLoop : List Char → List Char → Bool → List Char × List Char × Bool
  | '.' :: rest, root, err =>
    match rest with
    | '.' :: _ =>
      match beforeLastDot root with
      | none =>
        if root = [] then ([], [], true)
        else absLoop rest [] err
      | some r => absLoop rest r err
    | _ => absLoop rest root err
  | rel, root, err => (rel, root, err)

/-- Faithful rendering of `Item.get_absolutepath` for an item whose path
is `selfPath`.  The second component records whether the
above-root-level error was logged.  Note the source returns a path not
beginning with `'.'` verbatim, before any `self`-segment processing. -/
def Item.get_absolutepath (selfPath relativepath : String) : String × Bool :=
  if relativepath.toList = [] ∨ relativepath.toList.head? ≠ some '.' then
    (relativepath, false)
  else
    let r := absLoop (pyRstrip relativepath.toList) selfPath.toList false
    let rel := r.1
    let root0 := r.2.1
    let root1 :=
      if rel ≠ [] then
        (if root0 ≠ [] then root0 ++ '.' :: rel else rel)
      else root0
    let root2 :=
      if root1.drop (root1.length - 5) = ".self".toList then
        pyReplace ".self".toList [] root1
      else root1
    let root3 := pyReplace ".self.".toList ".".toList root2
    (String.mk root3, r.2.2)

/-! ### Threshold attribute parsing (item.py lines 441-449) -/

/-- Numeric value of a list of decimal digits. -/
def digitsToNat (l : List Char) : ℕ :=
  l.foldl (fun a c => a * 10 + (c.toNat - 48)) 0

/-- Model of Python `float(s)` restricted to the shapes that threshold
attributes can take: optional sign, decimal digits, optional decimal
point and fraction digits.  `none` models the `ValueError` raised by
`float` on anything else — in particular on the empty string. -/
def pyFloatCore (s : List Char) : Option ℚ :=
  let ip := s.takeWhile Char.isDigit
  match s.dropWhile Char.isDigit with
  | [] => if ip = [] then none else some (digitsToNat ip : ℚ)
  | '.' :: r2 =>
    let fp := r2.takeWhile Char.isDigit
    if r2.dropWhile Char.isDigit = [] ∧ (ip ≠ [] ∨ fp ≠ []) then
      some ((digitsToNat ip : ℚ) + (digitsToNat fp : ℚ) / (10 : ℚ) ^ fp.length)
    else none
  | _ => none

/-- Model of Python `float(s)` (see `pyFloatCore`); `float` itself
ignores surrounding whitespace. -/
def pyFloat (s : List Char) : Option ℚ :=
  match pyStrip s with
  | '-' :: t => (pyFloatCore t).map Neg.neg
  | '+' :: t => pyFloatCore t
  | t => pyFloatCore t

/-- Faithful rendering of the `KEY_THRESHOLD` branch of `Item.__init__`
(lines 441-448): `low, __, high = value.rpartition(':')`; only an empty
`low` is defaulted from `high`; both sides then go through
`float(side.strip())`.  `none` models the exception raised by `float`
(which aborts construction of the item). -/
def parseThreshold (value : List Char) : Option (ℚ × ℚ) :=
  let r := pyRpartition ':' value
  let low0 := r.1
  let high := r.2.2
  let low := if low0 = [] then high else low0
  match pyFloat (pyStrip low), pyFloat (pyStrip high) with
  | some l, some h => some (l, h)
  | _, _ => none

/-! ### Parent / grandparent attribute copying (item.py 453-460, 756-782) -/

/-- Parse-time view of an item: its plugin-attribute mapping `conf` and
its parent (`none` for a top-level item, whose Python parent is the
`Items` loader object rather than an `Item`). -/
inductive PItem : Type where
  | mk : List (String × String) → Option PItem → PItem

/-- The `conf` dictionary of a `PItem`. -/
def PItem.conf : PItem → List (String × String)
  | .mk c _ => c

/-- `Item.return_parent` (item.py line 1154). -/
def PItem.return_parent : PItem → Option PItem
  | .mk _ p => p

/-- Python `conf[attr]`: `none` models the `KeyError` on a missing key. -/
def lookupConf (conf : List (String × String)) (attr : String) :
    Option String :=
  (conf.find? (fun p => p.1 = attr)).map Prod.snd

/-- `Item._get_attr_from_parent` (lines 756-767): value of `attr` in the
parent's `conf`. -/
def PItem.get_attr_from_parent (self : PItem) (attr : String) :
    Option String :=
  match self.return_parent with
  | none => none
  | some pitem => lookupConf pitem.conf attr

/-- `Item._get_attr_from_grandparent` (lines 770-782).  The source
computes `gpitem = pitem.return_parent()` (line 777) but then returns
`pitem.conf[attr]` (line 779) — the PARENT's attribute value, with the
grandparent left unused.  This embedding reproduces that behaviour. -/
def PItem.get_attr_from_grandparent (self : PItem) (attr : String) :
    Option String :=
  match self.return_parent with
  | none => none
  | some pitem => lookupConf pitem.conf attr

/-- The plugin-specific attribute branch of `Item.__init__` (lines
453-460): literal `".."` copies from the parent, `"..."` from the
grandparent (via the functions above), anything else is stored
verbatim. -/
def resolveAttrValue (self : PItem) (attr value : String) : Option String :=
  if value = ".." then self.get_attr_from_parent attr
  else if value = "..." then self.get_attr_from_grandparent attr
  else some value

/-! ### The update protocol (item.py lines 998-1076) -/

/-- Construction-time configuration of an item, as read by
`Item.__update` / `Item.__call__`.  The `hasX` flags record whether the
corresponding rule list / subscriber list / attribute is non-empty,
since the source only tests truthiness of those lists before iterating
them.  `cast` is the per-item caster function attribute `self.cast`. -/
structure ItemConf (V : Type) where
  cast : V → Option V
  typ : String
  enforceUpdates : Bool
  hasEval : Bool
  hasOnUpdate : Bool
  hasOnChange : Bool
  hasMethods : Bool
  hasLogics : Bool
  hasTriggerItems : Bool
  threshold : Bool
  thLow : V
  thHigh : V
  hasCache : Bool
  autotimer : Bool

/-- Mutable per-item state guarded by the item's lock. -/
structure ItemState (V : Type) where
  value : V
  prevValue : V
  lastChange : ℕ
  prevChange : ℕ
  lastUpdate : ℕ
  prevUpdate : ℕ
  changedBy : String
  updatedBy : String
  fading : Bool
  thCrossed : Bool
deriving DecidableEq

/-- Externally visible actions performed by one `__update` call.  Rule
evaluation, subscriber callbacks, dependent re-evaluation dispatch,
cache writes and scheduler submissions all go to out-of-scope
collaborators, so they are recorded as flags; `autotimerArm` holds the
caller tag of the scheduled re-invocation when a one-shot timer was
submitted. -/
structure UpdateEffects where
  ranOnUpdate : Bool := false
  ranOnChange : Bool := false
  ranMethods : Bool := false
  firedLogics : Bool := false
  dispatchedTriggers : Bool := false
  wroteCache : Bool := false
  autotimerArm : Option String := none
  evalDispatched : Bool := false
deriving DecidableEq

/-- No externally visible action. -/
def noEffects : UpdateEffects := {}

/-- Faithful rendering of `Item.__update` (lines 998-1076).

* cast failure (line 1000-1006): log and return — no state change, no
  effect;
* step 2 (lines 1007-1029, under the lock): `updatedBy` is always
  overwritten; on a real change the previous value / change timestamps /
  `changedBy` are recorded and, unless the caller is the fading
  pseudo-caller `"fader"`, the fading flag is cleared;
* `__run_on_update` runs unconditionally (line 1031);
* the change gate (line 1032): value changed, or `_enforce_updates`, or
  the item type is `"scene"`; inside it the update timestamps roll,
  `__run_on_change` runs, method subscribers are invoked, threshold edge
  detection decides whether logics fire (lines 1042-1050), and dependent
  items are dispatched for re-evaluation;
* cache write-through (line 1054) requires a real change and not fading;
* autotimer re-arm (lines 1059-1076) requires the caller not to be
  `"Autotimer"` and the item not to be fading; the scheduled call is
  tagged `"Autotimer"`.

`nowC`/`nowU` are the two `shtime.now()` reads (change and update
timestamps). -/
def Item.update {V : Type} [LinearOrder V] (conf : ItemConf V)
    (s : ItemState V) (nowC nowU : ℕ) (raw : V) (caller source : String) :
    ItemState V × UpdateEffects :=
  match conf.cast raw with
  | none => (s, noEffects)
  | some v =>
    let changed : Bool := decide (v ≠ s.value)
    let s1 : ItemState V :=
      if v ≠ s.value then
        { s with
          updatedBy := caller ++ ":" ++ source,
          prevValue := s.value,
          value := v,
          prevChange := s.lastChange,
          lastChange := nowC,
          changedBy := caller ++ ":" ++ source,
          fading := if caller = "fader" then s.fading else false }
      else { s with updatedBy := caller ++ ":" ++ source }
    let gate : Bool := changed || conf.enforceUpdates || decide (conf.typ = "scene")
    let crossLow : Bool := s1.thCrossed && decide (s1.value ≤ conf.thLow)
    let crossHigh : Bool := !s1.thCrossed && decide (conf.thHigh ≤ s1.value)
    let thc : Bool × Bool :=
      if gate then
        if conf.threshold && conf.hasLogics then
          if crossLow then (false, true)
          else if crossHigh then (true, true)
          else (s1.thCrossed, false)
        else (s1.thCrossed, conf.hasLogics)
      else (s1.thCrossed, false)
    let s2 : ItemState V :=
      if gate then
        { s1 with prevUpdate := s1.lastUpdate, lastUpdate := nowU, thCrossed := thc.1 }
      else s1
    (s2,
      { ranOnUpdate := conf.hasOnUpdate,
        ranOnChange := gate && conf.hasOnChange,
        ranMethods := gate && conf.hasMethods,
        firedLogics := thc.2,
        dispatchedTriggers := gate && conf.hasTriggerItems,
        wroteCache := changed && conf.hasCache && !s2.fading,
        autotimerArm :=
          if conf.autotimer && decide (caller ≠ "Autotimer") && !s2.fading then
            some "Autotimer"
          else none,
        evalDispatched := false })

/-- Faithful rendering of `Item.__call__` (lines 832-839): with `none`
(Python `None`, also the default) it returns the current value and does
nothing else; with a value it either dispatches an asynchronous eval
(when the item has an eval expression) or calls `__update`.  After
construction `self._type` is never `None` (line 494 forces `FOO`), so
the `self._type is None` half of the guard is statically false here. -/
def Item.call {V : Type} [LinearOrder V] (conf : ItemConf V)
    (s : ItemState V) (nowC nowU : ℕ) (value : Option V)
    (caller source : String) :
    ItemState V × UpdateEffects × Option V :=
  match value with
  | none => (s, noEffects, some s.value)
  | some v =>
    if conf.hasEval then
      (s, { noEffects with evalDispatched := true }, none)
    else
      let r := Item.update conf s nowC nowU v caller source
      (r.1, r.2, none)

/-! ### The fade job (item.py lines 1423-1442)

The job's cooperative cancellation point is each read of `item._fading`.
Concurrent external clearing of the flag is modelled by a schedule
`flags : ℕ → Bool` giving the externally contributed flag value at the
n-th read (the job's own `'fader'`-tagged updates never clear the flag,
and nothing sets it back to true during one job).  The `while` loops are
given a fuel; `none` means the fuel ran out, so every `some` result is a
faithful finite run.  Each returned trace entry is one
`item(value, caller)` call issued by the job. -/

/-- Ascending branch of `_fadejob`: `while (item._value + step) < dest
and item._fading: item(item._value + step, 'fader'); wait`.  Returns the
final item state, the trace of issued calls and the index of the next
flag read. -/
def fadeLoopUp (conf : ItemConf ℤ) :
    ℕ → ItemState ℤ → ℤ → ℤ → (ℕ → Bool) → ℕ →
    Option (ItemState ℤ × List (ℤ × String) × ℕ)
  | 0, _, _, _, _, _ => none
  | fuel + 1, s, dest, step, flags, i =>
    if s.value + step < dest then
      if s.fading && flags i then
        let v := s.value + step
        let sNext := (Item.call conf s 0 0 (some v) "fader" "None").1
        match fadeLoopUp conf fuel sNext dest step flags (i + 1) with
        | none => none
        | some (sf, tr, j) => some (sf, (v, "fader") :: tr, j)
      else some (s, [], i + 1)
    else some (s, [], i)

/-- Descending branch of `_fadejob`: `while (item._value - step) > dest
and item._fading: item(item._value - step, 'fader'); wait`. -/
def fadeLoopDown (conf : ItemConf ℤ) :
    ℕ → ItemState ℤ → ℤ → ℤ → (ℕ → Bool) → ℕ →
    Option (ItemState ℤ × List (ℤ × String) × ℕ)
  | 0, _, _, _, _, _ => none
  | fuel + 1, s, dest, step, flags, i =>
    if dest < s.value - step then
      if s.fading && flags i then
        let v := s.value - step
        let sNext := (Item.call conf s 0 0 (some v) "fader" "None").1
        match fadeLoopDown conf fuel sNext dest step flags (i + 1) with
        | none => none
        | some (sf, tr, j) => some (sf, (v, "fader") :: tr, j)
      else some (s, [], i + 1)
    else some (s, [], i)

/-- Faithful rendering of `_fadejob` (lines 1423-1442): a no-op if the
item is already fading, otherwise set the flag, ramp toward `dest` in
the chosen direction, and — only if the flag is still set — clear it and
issue one final call with the exact destination tagged `"Fader"`. -/
def fadejob (conf : ItemConf ℤ) (fuel : ℕ) (s : ItemState ℤ)
    (dest step : ℤ) (flags : ℕ → Bool) :
    Option (ItemState ℤ × List (ℤ × String)) :=
  if s.fading then some (s, [])
  else
    let s0 : ItemState ℤ := { s with fading := true }
    let r :=
      if s0.value < dest then fadeLoopUp conf fuel s0 dest step flags 0
      else fadeLoopDown conf fuel s0 dest step flags 0
    match r with
    | none => none
    | some (s1, tr, i) =>
      if s1.fading && flags i then
        let s2 : ItemState ℤ := { s1 with fading := false }
        let s3 := (Item.call conf s2 0 0 (some dest) "Fader" "None").1
        some (s3, tr ++ [(dest, "Fader")])
      else some (s1, tr)

/-! ### Concrete configurations and states used by the theorems -/

/-- A plain numeric item: the caster accepts every `ℤ` unchanged, as
`_cast_num` does on values that are already numbers. -/
def numConf : ItemConf ℤ where
  cast := fun v => some v
  typ := "num"
  enforceUpdates := false
  hasEval := false
  hasOnUpdate := true
  hasOnChange := true
  hasMethods := true
  hasLogics := true
  hasTriggerItems := true
  threshold := false
  thLow := 0
  thHigh := 0
  hasCache := true
  autotimer := true

/-- A numeric item whose caster always fails, modelling a candidate
value that `self.cast` rejects with `ValueError`. -/
def badCastConf : ItemConf ℤ := { numConf with cast := fun _ => none }

/-- A numeric item with `threshold = 10:20` and a subscribed logic, as
in the specification's hysteresis example. -/
def thConf : ItemConf ℤ where
  cast := fun v => some v
  typ := "num"
  enforceUpdates := false
  hasEval := false
  hasOnUpdate := false
  hasOnChange := false
  hasMethods := false
  hasLogics := true
  hasTriggerItems := false
  threshold := true
  thLow := 10
  thHigh := 20
  hasCache := false
  autotimer := false

/-- A threshold item (low 10, high 20) that also has on_change rules,
method subscribers and a subscribed logic. -/
def thFullConf : ItemConf ℤ :=
  { thConf with hasOnUpdate := true, hasOnChange := true, hasMethods := true }

/-- A numeric item with no rules, subscribers, cache or autotimer, used
for the fade scenario. -/
def fadeConf : ItemConf ℤ where
  cast := fun v => some v
  typ := "num"
  enforceUpdates := false
  hasEval := false
  hasOnUpdate := false
  hasOnChange := false
  hasMethods := false
  hasLogics := false
  hasTriggerItems := false
  threshold := false
  thLow := 0
  thHigh := 0
  hasCache := false
  autotimer := false

/-- Freshly constructed numeric item state: value 0, not fading, no
threshold crossed. -/
def numState : ItemState ℤ where
  value := 0
  prevValue := 0
  lastChange := 0
  prevChange := 0
  lastUpdate := 0
  prevUpdate := 0
  changedBy := "Init:None"
  updatedBy := "Init:None"
  fading := false
  thCrossed := false

/-- A threshold item constructed with initial value 25 (e.g. from a
configured initial value); `__th_crossed` is initialised to `False` by
the attribute parser regardless of the value. -/
def thState25 : ItemState ℤ := { numState with value := 25 }

/-- Run a sequence of updates with caller `"Logic"`, collecting whether
each one fired the subscribed logics. -/
def runSeq (conf : ItemConf ℤ) : ItemState ℤ → List ℤ → List Bool
  | _, [] => []
  | s, v :: vs =>
    let r := Item.update conf s 0 0 v "Logic" "None"
    r.2.firedLogics :: runSeq conf r.1 vs

/-- External clearing of the fading flag before the k-th flag read:
reads 0 .. k-1 still see the flag set, later reads see it cleared. -/
def flagsCancel (k : ℕ) : ℕ → Bool := fun n => decide (n < k)

/-! ### Helper lemmas about `Item.update` -/

/-- After an accepted update the stored value is the cast result,
whether or not it differed from the previous value. -/
theorem update_value_of_cast {V : Type} [LinearOrder V] (conf : ItemConf V)
    (s : ItemState V) (nC nU : ℕ) (raw v : V) (caller source : String)
    (h : conf.cast raw = some v) :
    (Item.update conf s nC nU raw caller source).1.value = v := by
  simp only [Item.update, h]
  by_cases hv : v = s.value
  · simp only [hv]
    simp only [ne_eq, not_true_eq_false, if_false, reduceIte]
    split <;> simp [hv]
  · simp only [ne_eq, hv, not_false_eq_true, if_true, reduceIte]
    split <;> simp

/-- The fading flag after an accepted update: cleared exactly when the
value changed and the caller is not the fading pseudo-caller. -/
theorem update_fading_of_cast {V : Type} [LinearOrder V] (conf : ItemConf V)
    (s : ItemState V) (nC nU : ℕ) (raw v : V) (caller source : String)
    (h : conf.cast raw = some v) :
    (Item.update conf s nC nU raw caller source).1.fading =
      (if v ≠ s.value ∧ caller ≠ "fader" then false else s.fading) := by
  simp only [Item.update, h]
  by_cases hv : v = s.value <;> by_cases hc : caller = "fader" <;>
    simp [hv, hc] <;> split <;> simp

/-- The update fan-out flags of an accepted update, in terms of the
change gate expression. -/
theorem update_phases_of_cast {V : Type} [LinearOrder V] (conf : ItemConf V)
    (s : ItemState V) (nC nU : ℕ) (raw v : V) (caller source : String)
    (h : conf.cast raw = some v) :
    (Item.update conf s nC nU raw caller source).2.ranOnUpdate = conf.hasOnUpdate ∧
    (Item.update conf s nC nU raw caller source).2.ranOnChange =
      ((decide (v ≠ s.value) || conf.enforceUpdates || decide (conf.typ = "scene")) &&
        conf.hasOnChange) ∧
    (Item.update conf s nC nU raw caller source).2.ranMethods =
      ((decide (v ≠ s.value) || conf.enforceUpdates || decide (conf.typ = "scene")) &&
        conf.hasMethods) := by
  simp [Item.update, h]

/-- When the change gate is closed, no change-path action happens. -/
theorem update_gate_false {V : Type} [LinearOrder V] (conf : ItemConf V)
    (s : ItemState V) (nC nU : ℕ) (raw v : V) (caller source : String)
    (h : conf.cast raw = some v)
    (hg : (decide (v ≠ s.value) || conf.enforceUpdates ||
            decide (conf.typ = "scene")) = false) :
    (Item.update conf s nC nU raw caller source).2.ranOnChange = false ∧
    (Item.update conf s nC nU raw caller source).2.ranMethods = false ∧
    (Item.update conf s nC nU raw caller source).2.firedLogics = false := by
  simp only [Item.update, h, hg]
  simp

/-- With the change gate open, a threshold item with subscribed logics
fires them exactly on an edge crossing of the (freshly stored) value. -/
theorem update_firedLogics_threshold {V : Type} [LinearOrder V]
    (conf : ItemConf V) (s : ItemState V) (nC nU : ℕ) (raw v : V)
    (caller source : String) (h : conf.cast raw = some v)
    (hth : conf.threshold = true) (hlog : conf.hasLogics = true)
    (hg : (decide (v ≠ s.value) || conf.enforceUpdates ||
            decide (conf.typ = "scene")) = true) :
    (Item.update conf s nC nU raw caller source).2.firedLogics =
      ((s.thCrossed && decide (v ≤ conf.thLow)) ||
       (!s.thCrossed && decide (conf.thHigh ≤ v))) := by
  simp only [Item.update, h, hth, hlog, hg]
  by_cases hv : v = s.value
  · simp only [hv]
    simp only [ne_eq, not_true_eq_false, if_false, reduceIte]
    cases hcl : (s.thCrossed && decide (s.value ≤ conf.thLow)) <;>
      cases hch : (!s.thCrossed && decide (conf.thHigh ≤ s.value)) <;>
        simp [hcl, hch]
  · simp only [ne_eq, hv, not_false_eq_true, if_true, reduceIte]
    cases hcl : (s.thCrossed && decide (v ≤ conf.thLow)) <;>
      cases hch : (!s.thCrossed && decide (conf.thHigh ≤ v)) <;>
        simp [hcl, hch]

/-- On an item without a configured threshold, subscribed logics fire
exactly when the change gate is open (lines 1049-1050). -/
theorem update_firedLogics_no_threshold {V : Type} [LinearOrder V]
    (conf : ItemConf V) (s : ItemState V) (nC nU : ℕ) (raw v : V)
    (caller source : String) (h : conf.cast raw = some v)
    (hth : conf.threshold = false) :
    (Item.update conf s nC nU raw caller source).2.firedLogics =
      ((decide (v ≠ s.value) || conf.enforceUpdates ||
        decide (conf.typ = "scene")) && conf.hasLogics) := by
  simp only [Item.update, h, hth, Bool.false_and]
  cases hg : (decide (v ≠ s.value) || conf.enforceUpdates ||
      decide (conf.typ = "scene")) <;> simp [hg]

/-! ### Claim theorems -/

/-- C2: the update entry point never raises (the model is a total
function), and when the caster rejects the candidate value the call
returns with the item state completely unchanged — value, previous
value, all four timestamps, both provenance strings, fading and
threshold state — and with no on_update/on_change rule run, no
subscriber callback, no dependent dispatch, no cache write and no
autotimer re-arm. -/
theorem update_cast_failure_frame :
    ∀ (V : Type) [LinearOrder V] (conf : ItemConf V)
      (s : ItemState V) (nC nU : ℕ) (raw : V) (caller source : String),
      conf.cast raw = none →
      Item.update conf s nC nU raw caller source = (s, noEffects) := by
  intro V _inst conf s nC nU raw caller source h
  simp [Item.update, h]

/-- Witness for C2 at a concrete rejected value. -/
theorem update_cast_failure_frame_witness :
    Item.update badCastConf numState 0 0 7 "KNX" "None" = (numState, noEffects) :=
  update_cast_failure_frame ℤ badCastConf numState 0 0 7 "KNX" "None" rfl

/-- C10: calling a node with `None` (or no value) is a pure read: the
current value is returned, the state (value, previous value,
timestamps, provenance, fading flag) is untouched and no effect —
rule evaluation, subscriber invocation, dependent dispatch, cache
write, timer scheduling or eval dispatch — is performed, so a node can
never be set to `None` through this entry point. -/
theorem call_none_pure_read :
    ∀ (V : Type) [LinearOrder V] (conf : ItemConf V)
      (s : ItemState V) (nC nU : ℕ) (caller source : String),
      Item.call conf s nC nU none caller source = (s, noEffects, some s.value) := by
  intro V _inst conf s nC nU caller source
  rfl

/-- C5 counterexample: `get_absolutepath` returns a path that does not
start with a dot verbatim, so the absolute path `a.b.c.self` is NOT
canonicalized to `a.b.c` — its trailing `self` segment survives. -/
theorem selfpath_counterexample :
    Item.get_absolutepath "a.b.c" "a.b.c.self" = ("a.b.c.self", false) ∧
    ("a.b.c.self" : String) ≠ "a.b.c" := by decide

/-- C5 as amended: from item `a.b.c`, `.d` expands to `a.b.c.d`, `..d`
to `a.b.d`, `...d` to `a.d`; the trailing-`self` removal applies to
dot-relative paths (`.self` expands to `a.b.c`) while a path not
beginning with a dot, such as `a.b.c.self`, is returned verbatim; and
walking above the root yields the empty path with the error logged
instead of raising. -/
theorem path_expansion_amended :
    Item.get_absolutepath "a.b.c" ".d" = ("a.b.c.d", false) ∧
    Item.get_absolutepath "a.b.c" "..d" = ("a.b.d", false) ∧
    Item.get_absolutepath "a.b.c" "...d" = ("a.d", false) ∧
    Item.get_absolutepath "a.b.c" ".self" = ("a.b.c", false) ∧
    Item.get_absolutepath "a.b.c" "a.b.c.self" = ("a.b.c.self", false) ∧
    Item.get_absolutepath "a.b.c" ".....d" = ("", true) := by decide

/-- C7 counterexample: in `'a == b = c'` a bare `=` occurs after a
`==`, yet the splitter returns an EMPTY destination and the whole
string unchanged, not the destination `'a == b '` the claim predicts. -/
theorem splitdest_counterexample :
    splitDestS "a == b = c" = ("", "a == b = c") ∧
    ("" : String) ≠ "a == b " := by decide

/-- C7 as amended: if the string contains an `=` and either no `==`
occurs or the first `=` lies strictly before the first `==`, then the
destination is everything before the first `=` (additionally
whitespace-stripped when a `==` is present) and the expression is
everything after that `=`, whitespace-stripped; otherwise — no `=` at
all, or the first `=` not strictly before the first `==` as in
`'a == b = c'` — the destination is empty and the whole string is the
expression, unchanged. -/
theorem splitdest_amended :
    ∀ s : List Char,
      (pyFind ['='] s = none → Item.split_destitem_from_value s = ([], s)) ∧
      (∀ i, pyFind ['='] s = some i → pyFind ['=', '='] s = none →
        Item.split_destitem_from_value s = (s.take i, pyStrip (s.drop (i + 1)))) ∧
      (∀ i j, pyFind ['='] s = some i → pyFind ['=', '='] s = some j →
        (i < j →
          Item.split_destitem_from_value s =
            (pyStrip (s.take i), pyStrip (s.drop (i + 1)))) ∧
        (¬i < j → Item.split_destitem_from_value s = ([], s))) := by
  intro s
  refine ⟨?_, ?_, ?_⟩
  · intro h
    simp [Item.split_destitem_from_value, h]
  · intro i hi hj
    simp [Item.split_destitem_from_value, hi, hj]
  · intro i j hi hj
    constructor
    · intro hlt
      simp [Item.split_destitem_from_value, hi, hj, hlt]
    · intro hlt
      simp [Item.split_destitem_from_value, hi, hj, hlt]

/-- Witness for C7 (amended) on `'a = b'`: destination `'a '` (up to
the `=`, unstripped since no `==` occurs), expression `'b'`. -/
theorem splitdest_amended_witness :
    Item.split_destitem_from_value ("a = b".toList) =
      (("a = b".toList).take 2, pyStrip (("a = b".toList).drop 3)) :=
  (splitdest_amended ("a = b".toList)).2.1 2 (by decide) (by decide)

/-- C8 counterexample: a threshold attribute `'10:'` with the high side
omitted does NOT default the high side to the low one — `float('')`
raises, so parsing fails instead of yielding low = high = 10.0. -/
theorem threshold_attr_counterexample :
    parseThreshold ("10:".toList) = none := by
  decide

/-- C8 as amended: parsing `':20'` defaults the omitted LOW side to the
present one, yielding low = 20.0 and high = 20.0 without raising, and a
full `'10:20'` parses to (10.0, 20.0); but an omitted HIGH side is not
defaulted: parsing `'10:'` raises (modelled as `none`). -/
theorem threshold_attr_amended :
    parseThreshold (":20".toList) = some (20, 20) ∧
    parseThreshold ("10:".toList) = none ∧
    parseThreshold ("10:20".toList) = some (10, 20) := by decide

/-- C9: the code stores the PARENT's attribute value for the literal
`'...'`, not the grandparent's.  With grandparent `a` carrying
`knx = 'gv'` and parent `a.b` carrying `knx = 'pv'`, resolving the
attribute value `'...'` on child `a.b.c` yields `'pv'` — the source's
`_get_attr_from_grandparent` computes the grandparent but returns
`pitem.conf[attr]`, contradicting its own docstring. -/
theorem grandparent_attr_code_bug :
    resolveAttrValue
        (PItem.mk [] (some (PItem.mk [("knx", "pv")]
          (some (PItem.mk [("knx", "gv")] none))))) "knx" "..." = some "pv" ∧
    lookupConf (PItem.mk [("knx", "gv")] none).conf "knx" = some "gv" ∧
    ("pv" : String) ≠ "gv" := by decide

/-- C1 counterexample: on a threshold item (low 10, high 20) with
on_change rules, method subscribers and a logic subscribed, the first
update 0 → 15 actually changes the value and runs the change path (the
on_change rules and the method subscribers), yet the logic subscribers
do NOT run: threshold items fire logics only on a crossing, so the
claim's inclusion of the logic subscribers among the actions that run
on the first changing call (and, under enforceUpdates/scene, on every
update) is false. -/
theorem update_idempotence_counterexample :
    thFullConf.hasLogics = true ∧ (15 : ℤ) ≠ numState.value ∧
    (Item.update thFullConf numState 0 0 15 "KNX" "None").2.ranOnChange = true ∧
    (Item.update thFullConf numState 0 0 15 "KNX" "None").2.ranMethods = true ∧
    (Item.update thFullConf numState 0 0 15 "KNX" "None").2.firedLogics = false := by
  decide

/-- C1 as amended: updating twice in succession with the same accepted
value runs the on_update rules on both calls, while the second call
runs no on_change rule, invokes no method subscriber and triggers no
logic — unless `enforceUpdates` is set or the item type is `"scene"`,
in which case the on_change rules and the method subscribers run on
every update, and so do the logic subscribers on items WITHOUT a
configured threshold.  On the first call these actions run whenever the
value actually changed — again with the logic subscribers only on
threshold-free items; threshold items fire logics per the crossing rule
(C3), not merely because the change path runs. -/
theorem update_idempotence_amended :
    ∀ (V : Type) [LinearOrder V] (conf : ItemConf V) (s : ItemState V)
      (n1 n2 n3 n4 : ℕ) (raw v : V) (c1 c2 src1 src2 : String),
      conf.cast raw = some v →
      ((Item.update conf s n1 n2 raw c1 src1).2.ranOnUpdate = conf.hasOnUpdate ∧
       (Item.update conf (Item.update conf s n1 n2 raw c1 src1).1
           n3 n4 raw c2 src2).2.ranOnUpdate = conf.hasOnUpdate) ∧
      (conf.enforceUpdates = false → conf.typ ≠ "scene" →
        (Item.update conf (Item.update conf s n1 n2 raw c1 src1).1
            n3 n4 raw c2 src2).2.ranOnChange = false ∧
        (Item.update conf (Item.update conf s n1 n2 raw c1 src1).1
            n3 n4 raw c2 src2).2.ranMethods = false ∧
        (Item.update conf (Item.update conf s n1 n2 raw c1 src1).1
            n3 n4 raw c2 src2).2.firedLogics = false) ∧
      ((conf.enforceUpdates = true ∨ conf.typ = "scene") →
        (Item.update conf s n1 n2 raw c1 src1).2.ranOnChange = conf.hasOnChange ∧
        (Item.update conf (Item.update conf s n1 n2 raw c1 src1).1
            n3 n4 raw c2 src2).2.ranOnChange = conf.hasOnChange ∧
        (Item.update conf s n1 n2 raw c1 src1).2.ranMethods = conf.hasMethods ∧
        (Item.update conf (Item.update conf s n1 n2 raw c1 src1).1
            n3 n4 raw c2 src2).2.ranMethods = conf.hasMethods ∧
        (conf.threshold = false →
          (Item.update conf s n1 n2 raw c1 src1).2.firedLogics = conf.hasLogics ∧
          (Item.update conf (Item.update conf s n1 n2 raw c1 src1).1
              n3 n4 raw c2 src2).2.firedLogics = conf.hasLogics)) ∧
      (v ≠ s.value →
        (Item.update conf s n1 n2 raw c1 src1).2.ranOnChange = conf.hasOnChange ∧
        (Item.update conf s n1 n2 raw c1 src1).2.ranMethods = conf.hasMethods ∧
        (conf.threshold = false →
          (Item.update conf s n1 n2 raw c1 src1).2.firedLogics = conf.hasLogics)) := by
  intro V _inst conf s n1 n2 n3 n4 raw v c1 c2 src1 src2 h
  have hval : (Item.update conf s n1 n2 raw c1 src1).1.value = v :=
    update_value_of_cast conf s n1 n2 raw v c1 src1 h
  have ph1 := update_phases_of_cast conf s n1 n2 raw v c1 src1 h
  have ph2 := update_phases_of_cast conf (Item.update conf s n1 n2 raw c1 src1).1
    n3 n4 raw v c2 src2 h
  refine ⟨⟨ph1.1, ph2.1⟩, ?_, ?_, ?_⟩
  · intro he hsc
    exact update_gate_false conf (Item.update conf s n1 n2 raw c1 src1).1
      n3 n4 raw v c2 src2 h (by simp [hval, he, hsc])
  · intro hor
    have hg1 : (decide (v ≠ s.value) || conf.enforceUpdates ||
        decide (conf.typ = "scene")) = true := by
      rcases hor with h1 | h1 <;> simp [h1]
    have hg2 : (decide (v ≠ (Item.update conf s n1 n2 raw c1 src1).1.value) ||
        conf.enforceUpdates || decide (conf.typ = "scene")) = true := by
      rcases hor with h1 | h1 <;> simp [h1]
    refine ⟨?_, ?_, ?_, ?_, ?_⟩
    · rw [ph1.2.1, hg1, Bool.true_and]
    · rw [ph2.2.1, hg2, Bool.true_and]
    · rw [ph1.2.2, hg1, Bool.true_and]
    · rw [ph2.2.2, hg2, Bool.true_and]
    · intro hth
      constructor
      · rw [update_firedLogics_no_threshold conf s n1 n2 raw v c1 src1 h hth,
          hg1, Bool.true_and]
      · rw [update_firedLogics_no_threshold conf
          (Item.update conf s n1 n2 raw c1 src1).1 n3 n4 raw v c2 src2 h hth,
          hg2, Bool.true_and]
  · intro hch
    have hg1 : (decide (v ≠ s.value) || conf.enforceUpdates ||
        decide (conf.typ = "scene")) = true := by simp [hch]
    refine ⟨by rw [ph1.2.1, hg1, Bool.true_and],
            by rw [ph1.2.2, hg1, Bool.true_and], ?_⟩
    intro hth
    rw [update_firedLogics_no_threshold conf s n1 n2 raw v c1 src1 h hth,
      hg1, Bool.true_and]

/-- Witness for C1 (amended) on a plain threshold-free numeric item
with rules, methods and logics configured: value 5 written twice from a
fresh state. -/
theorem update_idempotence_amended_witness :
    ((Item.update numConf numState 0 0 5 "KNX" "None").2.ranOnUpdate = numConf.hasOnUpdate ∧
     (Item.update numConf (Item.update numConf numState 0 0 5 "KNX" "None").1
         0 0 5 "KNX" "None").2.ranOnUpdate = numConf.hasOnUpdate) ∧
    (numConf.enforceUpdates = false → numConf.typ ≠ "scene" →
      (Item.update numConf (Item.update numConf numState 0 0 5 "KNX" "None").1
          0 0 5 "KNX" "None").2.ranOnChange = false ∧
      (Item.update numConf (Item.update numConf numState 0 0 5 "KNX" "None").1
          0 0 5 "KNX" "None").2.ranMethods = false ∧
      (Item.update numConf (Item.update numConf numState 0 0 5 "KNX" "None").1
          0 0 5 "KNX" "None").2.firedLogics = false) ∧
    ((numConf.enforceUpdates = true ∨ numConf.typ = "scene") →
      (Item.update numConf numState 0 0 5 "KNX" "None").2.ranOnChange = numConf.hasOnChange ∧
      (Item.update numConf (Item.update numConf numState 0 0 5 "KNX" "None").1
          0 0 5 "KNX" "None").2.ranOnChange = numConf.hasOnChange ∧
      (Item.update numConf numState 0 0 5 "KNX" "None").2.ranMethods = numConf.hasMethods ∧
      (Item.update numConf (Item.update numConf numState 0 0 5 "KNX" "None").1
          0 0 5 "KNX" "None").2.ranMethods = numConf.hasMethods ∧
      (numConf.threshold = false →
        (Item.update numConf numState 0 0 5 "KNX" "None").2.firedLogics = numConf.hasLogics ∧
        (Item.update numConf (Item.update numConf numState 0 0 5 "KNX" "None").1
            0 0 5 "KNX" "None").2.firedLogics = numConf.hasLogics)) ∧
    ((5 : ℤ) ≠ numState.value →
      (Item.update numConf numState 0 0 5 "KNX" "None").2.ranOnChange = numConf.hasOnChange ∧
      (Item.update numConf numState 0 0 5 "KNX" "None").2.ranMethods = numConf.hasMethods ∧
      (numConf.threshold = false →
        (Item.update numConf numState 0 0 5 "KNX" "None").2.firedLogics = numConf.hasLogics)) :=
  update_idempotence_amended ℤ numConf numState 0 0 0 0 5 5 "KNX" "KNX" "None" "None" rfl

/-- C6: an accepted update arms the one-shot autotimer, with scheduled
caller tag `"Autotimer"`, exactly when an autotimer is configured, the
update's caller is not `"Autotimer"` and the item is not fading (the
flag as left by the update's own commit step, which a changing
non-fader caller clears); in particular an `"Autotimer"`-tagged update
never re-arms, and while the fading flag remains set neither the
re-arm nor the cache write-through happens. -/
theorem autotimer_rearm_iff :
    ∀ (V : Type) [LinearOrder V] (conf : ItemConf V) (s : ItemState V)
      (nC nU : ℕ) (raw v : V) (caller source : String),
      conf.cast raw = some v →
      (((Item.update conf s nC nU raw caller source).2.autotimerArm = some "Autotimer") ↔
        (conf.autotimer = true ∧ caller ≠ "Autotimer" ∧
         (Item.update conf s nC nU raw caller source).1.fading = false)) ∧
      (caller = "Autotimer" →
        (Item.update conf s nC nU raw caller source).2.autotimerArm = none) ∧
      ((Item.update conf s nC nU raw caller source).1.fading = true →
        (Item.update conf s nC nU raw caller source).2.autotimerArm = none ∧
        (Item.update conf s nC nU raw caller source).2.wroteCache = false) := by
  intro V _inst conf s nC nU raw v caller source h
  simp only [Item.update, h]
  by_cases hv : v = s.value
  all_goals by_cases hf : caller = "fader"
  all_goals simp only [ne_eq, hv, hf, not_true_eq_false, not_false_eq_true,
    if_false, if_true, reduceIte]
  all_goals constructor
  all_goals try constructor
  all_goals try intro h1
  all_goals split <;> simp_all

/-- Witness for C6: a changing update from a non-`"Autotimer"` caller
on an autotimer-equipped, non-fading item. -/
theorem autotimer_rearm_iff_witness :
    (((Item.update numConf numState 0 0 5 "KNX" "None").2.autotimerArm = some "Autotimer") ↔
      (numConf.autotimer = true ∧ ("KNX" : String) ≠ "Autotimer" ∧
       (Item.update numConf numState 0 0 5 "KNX" "None").1.fading = false)) ∧
    (("KNX" : String) = "Autotimer" →
      (Item.update numConf numState 0 0 5 "KNX" "None").2.autotimerArm = none) ∧
    ((Item.update numConf numState 0 0 5 "KNX" "None").1.fading = true →
      (Item.update numConf numState 0 0 5 "KNX" "None").2.autotimerArm = none ∧
      (Item.update numConf numState 0 0 5 "KNX" "None").2.wroteCache = false) :=
  autotimer_rearm_iff ℤ numConf numState 0 0 5 5 "KNX" "None" rfl

/-- C3 counterexample: on a threshold item (low 10, high 20, logic
subscribed) constructed with initial value 25 and crossed-state still
false, an update to the same value 25 satisfies the claim's high-cross
condition (crossed-state false, new value ≥ 20) yet fires NO logic,
because the unchanged value closes the change gate. -/
theorem threshold_exact_crossing_counterexample :
    (Item.update thConf thState25 0 0 25 "KNX" "None").2.firedLogics = false ∧
    thState25.thCrossed = false ∧ thConf.thHigh ≤ (25 : ℤ) ∧
    thConf.threshold = true ∧ thConf.hasLogics = true := by decide

/-- C3 as amended: for updates that pass the change gate (value
actually changed, or `enforceUpdates`, or type `"scene"`), a threshold
item with subscribed logics fires them exactly on a crossing — when the
crossed state holds and the new value is ≤ low (clearing it), or when
it does not hold and the new value is ≥ high (setting it).  With
low = 10 and high = 20, the update sequence 5, 25, 5 from a fresh item
fires exactly at 25 and at the final 5, and a value strictly between
10 and 20 never fires the logics. -/
theorem threshold_crossing_amended :
    (∀ (V : Type) [LinearOrder V] (conf : ItemConf V) (s : ItemState V)
        (nC nU : ℕ) (raw v : V) (caller source : String),
        conf.cast raw = some v →
        conf.threshold = true → conf.hasLogics = true →
        (v ≠ s.value ∨ conf.enforceUpdates = true ∨ conf.typ = "scene") →
        ((Item.update conf s nC nU raw caller source).2.firedLogics = true ↔
          ((s.thCrossed = true ∧ v ≤ conf.thLow) ∨
           (s.thCrossed = false ∧ conf.thHigh ≤ v)))) ∧
    runSeq thConf numState [5, 25, 5] = [false, true, true] ∧
    (∀ (s : ItemState ℤ) (v : ℤ) (caller source : String),
        10 < v → v < 20 →
        (Item.update thConf s 0 0 v caller source).2.firedLogics = false) := by
  refine ⟨?_, by decide, ?_⟩
  · intro V _inst conf s nC nU raw v caller source h hth hlog hor
    have hg : (decide (v ≠ s.value) || conf.enforceUpdates ||
        decide (conf.typ = "scene")) = true := by
      rcases hor with h1 | h1 | h1 <;> simp [h1]
    rw [update_firedLogics_threshold conf s nC nU raw v caller source h hth hlog hg]
    simp [Bool.or_eq_true, Bool.and_eq_true, Bool.not_eq_true']
  · intro s v caller source h1 h2
    by_cases hv : v = s.value
    · exact (update_gate_false thConf s 0 0 v v caller source rfl
        (by simp [hv, thConf])).2.2
    · have hg : (decide (v ≠ s.value) || thConf.enforceUpdates ||
          decide (thConf.typ = "scene")) = true := by simp [hv]
      rw [update_firedLogics_threshold thConf s 0 0 v v caller source rfl rfl rfl hg]
      have e1 : decide (v ≤ thConf.thLow) = false :=
        decide_eq_false (by show ¬(v ≤ (10 : ℤ)); omega)
      have e2 : decide (thConf.thHigh ≤ v) = false :=
        decide_eq_false (by show ¬((20 : ℤ) ≤ v); omega)
      simp [e1, e2]

/-- Witness for C3 (amended): the 5 → 25 transition of the hysteresis
example is a high crossing and fires the logics. -/
theorem threshold_crossing_amended_witness :
    (Item.update thConf { numState with value := 5 } 0 0 25 "KNX" "None").2.firedLogics = true ↔
      (({ numState with value := 5 } : ItemState ℤ).thCrossed = true ∧ (25 : ℤ) ≤ thConf.thLow) ∨
      (({ numState with value := 5 } : ItemState ℤ).thCrossed = false ∧ thConf.thHigh ≤ (25 : ℤ)) :=
  threshold_crossing_amended.1 ℤ thConf { numState with value := 5 } 0 0 25 25 "KNX" "None"
    rfl rfl rfl (Or.inl (by decide))

/-- C4: fading a numeric item from 0 toward 10 with step 2 (not already
fading, flag never cleared externally) issues exactly the calls
2, 4, 6, 8 tagged `"fader"` followed by one final call with the exact
destination 10 tagged `"Fader"`, after which the fading flag is false
and the value is 10; and if the flag is cleared externally before the
k-th cooperative check (k < 4), the job stops after the first k stepped
calls, issuing neither the remaining steps nor the final destination
call. -/
theorem fadejob_trace :
    ((fadejob fadeConf 20 numState 10 2 (fun _ => true)).map
        (fun p => (p.2, p.1.fading, p.1.value)) =
      some ([((2 : ℤ), "fader"), (4, "fader"), (6, "fader"), (8, "fader"),
             (10, "Fader")], false, 10)) ∧
    (∀ k : ℕ, k < 4 →
      (fadejob fadeConf 20 numState 10 2 (flagsCancel k)).map (fun p => p.2) =
        some ((List.range k).map (fun j => (((j : ℤ) + 1) * 2, "fader")))) := by
  refine ⟨by decide, ?_⟩
  intro k hk
  interval_cases k <;> decide

/-- Witness for C4: external cancellation before the third check stops
the ramp after the calls 2 and 4. -/
theorem fadejob_trace_witness :
    (fadejob fadeConf 20 numState 10 2 (flagsCancel 2)).map (fun p => p.2) =
      some ((List.range 2).map (fun j => (((j : ℤ) + 1) * 2, "fader"))) :=
  fadejob_trace.2 2 (by decide)

end SmartHome
